import Mathlib

/-!
Verification of the density/SSA core of `snowmicropyn` (files
`snowmicropyn/density_ssa.py` and collaborators) against its
natural-language specification.

Numeric model: the Python code computes with IEEE double-precision floats.
Finite values are modelled by exact real numbers; the special values
(positive/negative infinity and not-a-number) are modelled explicitly by the
`RFloat` type, whose operations follow the IEEE special-value rules used by
numpy/pandas (`nan` absorbs, `log` of a negative number is `nan`, `log 0` is
negative infinity, division of a nonzero number by zero is a signed
infinity, `0 / 0` is `nan`).  Rounding is not modelled (the claims under
check are about exact formulas and special-value propagation, and none of
the involved quantities overflows); the sign of zero is not modelled, a
float `-0.0` and `0.0` both map to `RFloat.fin 0`.
-/

/-- A double-precision value: a finite real, one of the signed infinities,
or not-a-number. -/
inductive RFloat where
  | fin (x : ℝ)
  | pinf
  | ninf
  | nan

namespace RFloat

/-- IEEE addition on the special-value model. -/
noncomputable def add : RFloat → RFloat → RFloat
  | nan, _ => nan
  | _, nan => nan
  | fin x, fin y => fin (x + y)
  | fin _, pinf => pinf
  | fin _, ninf => ninf
  | pinf, fin _ => pinf
  | ninf, fin _ => ninf
  | pinf, pinf => pinf
  | ninf, ninf => ninf
  | pinf, ninf => nan
  | ninf, pinf => nan

/-- IEEE negation on the special-value model. -/
def neg : RFloat → RFloat
  | nan => nan
  | pinf => ninf
  | ninf => pinf
  | fin x => fin (-x)

/-- IEEE multiplication on the special-value model (`0 * inf = nan`). -/
noncomputable def mul : RFloat → RFloat → RFloat
  | nan, _ => nan
  | _, nan => nan
  | fin x, fin y => fin (x * y)
  | fin x, pinf => if 0 < x then pinf else if x < 0 then ninf else nan
  | fin x, ninf => if 0 < x then ninf else if x < 0 then pinf else nan
  | pinf, fin y => if 0 < y then pinf else if y < 0 then ninf else nan
  | ninf, fin y => if 0 < y then ninf else if y < 0 then pinf else nan
  | pinf, pinf => pinf
  | pinf, ninf => ninf
  | ninf, pinf => ninf
  | ninf, ninf => pinf

/-- IEEE subtraction, as addition of the negation. -/
noncomputable def sub (a b : RFloat) : RFloat := add a (neg b)

/-- IEEE division on the special-value model (division by `fin 0` follows the
rules for an unsigned zero divisor: `x / 0` is a signed infinity for finite
nonzero `x`, `0 / 0` is `nan`, `inf / 0` is an infinity, `inf / inf` is
`nan`, and any finite value divided by an infinity is zero). -/
noncomputable def div : RFloat → RFloat → RFloat
  | nan, _ => nan
  | _, nan => nan
  | fin x, fin y =>
      if y = 0 then (if x = 0 then nan else if 0 < x then pinf else ninf)
      else fin (x / y)
  | fin _, pinf => fin 0
  | fin _, ninf => fin 0
  | pinf, fin y => if 0 ≤ y then pinf else ninf
  | ninf, fin y => if 0 ≤ y then ninf else pinf
  | pinf, pinf => nan
  | pinf, ninf => nan
  | ninf, pinf => nan
  | ninf, ninf => nan

/-- `numpy.log` on the special-value model: `log x` for positive finite `x`,
`-inf` at zero, `nan` for negative arguments and for `nan` and `-inf`. -/
noncomputable def log : RFloat → RFloat
  | nan => nan
  | pinf => pinf
  | ninf => nan
  | fin x => if 0 < x then fin (Real.log x) else if x = 0 then ninf else nan

/-- Is this value not-a-number? -/
def isNan : RFloat → Bool
  | nan => true
  | _ => false

/-- Is this value one of the two infinities? -/
def isInfinite : RFloat → Bool
  | pinf => true
  | ninf => true
  | _ => false

/-- Is this value finite (neither infinite nor not-a-number)? -/
def isFinite : RFloat → Bool
  | fin _ => true
  | _ => false

end RFloat

noncomputable instance : Add RFloat := ⟨RFloat.add⟩
noncomputable instance : Mul RFloat := ⟨RFloat.mul⟩
noncomputable instance : Sub RFloat := ⟨RFloat.sub⟩
noncomputable instance : Div RFloat := ⟨RFloat.div⟩
instance : Neg RFloat := ⟨RFloat.neg⟩

namespace RFloat

theorem fin_add (x y : ℝ) : fin x + fin y = fin (x + y) := rfl

theorem fin_mul (x y : ℝ) : fin x * fin y = fin (x * y) := rfl

theorem fin_sub (x y : ℝ) : fin x - fin y = fin (x - y) := by
  show sub (fin x) (fin y) = fin (x - y)
  simp [sub, neg, add, sub_eq_add_neg]

theorem fin_div (x y : ℝ) (hy : y ≠ 0) : fin x / fin y = fin (x / y) := by
  show div (fin x) (fin y) = fin (x / y)
  simp [div, hy]

theorem log_fin_pos {x : ℝ} (hx : 0 < x) : log (fin x) = fin (Real.log x) := by
  simp [log, hx]

theorem log_fin_zero : log (fin 0) = ninf := by simp [log]

theorem log_fin_neg {x : ℝ} (hx : x < 0) : log (fin x) = nan := by
  simp [log, not_lt.mpr hx.le, hx.ne]

theorem nan_add (a : RFloat) : nan + a = nan := by
  show add nan a = nan
  cases a <;> rfl

theorem add_nan (a : RFloat) : a + nan = nan := by
  show add a nan = nan
  cases a <;> rfl

theorem nan_mul (a : RFloat) : nan * a = nan := by
  show mul nan a = nan
  cases a <;> rfl

theorem mul_nan (a : RFloat) : a * nan = nan := by
  show mul a nan = nan
  cases a <;> rfl

theorem log_nan : log nan = nan := rfl

/-- Adding anything to a non-finite value never yields a finite value. -/
theorem add_not_finite_left {a : RFloat} (ha : a.isFinite = false) (b : RFloat) :
    (a + b).isFinite = false := by
  show (add a b).isFinite = false
  cases a <;> cases b <;> simp_all [add, isFinite]

/-- Adding a non-finite value to anything never yields a finite value. -/
theorem add_not_finite_right (a : RFloat) {b : RFloat} (hb : b.isFinite = false) :
    (a + b).isFinite = false := by
  show (add a b).isFinite = false
  cases a <;> cases b <;> simp_all [add, isFinite]

/-- Multiplying a non-finite value by anything never yields a finite value. -/
theorem mul_not_finite_left {a : RFloat} (ha : a.isFinite = false) (b : RFloat) :
    (a * b).isFinite = false := by
  show (mul a b).isFinite = false
  cases a with
  | fin x => simp [isFinite] at ha
  | nan => cases b <;> rfl
  | pinf =>
      cases b <;> first
        | rfl
        | (simp only [mul]; split <;> first | rfl | (split <;> rfl))
  | ninf =>
      cases b <;> first
        | rfl
        | (simp only [mul]; split <;> first | rfl | (split <;> rfl))

/-- Multiplying anything by negative infinity never yields a finite value. -/
theorem mul_ninf_not_finite (a : RFloat) : (a * ninf).isFinite = false := by
  show (mul a ninf).isFinite = false
  cases a <;>
    first
      | rfl
      | (simp only [mul]; split <;> first | rfl | (split <;> rfl))

/-- Dividing any value by an (unsigned) zero never yields a finite value. -/
theorem div_fin_zero_not_finite (a : RFloat) : (a / fin 0).isFinite = false := by
  show (div a (fin 0)).isFinite = false
  cases a with
  | nan => rfl
  | pinf => simp only [div]; split <;> rfl
  | ninf => simp only [div]; split <;> rfl
  | fin x =>
      simp only [div]
      split
      · split <;> first | rfl | (split <;> rfl)
      · simp_all

end RFloat

/-! ## The coefficient bundles of `density_ssa.calc_step`

`calc_step(median_force, element_size, coeff_model)` (density_ssa.py lines
25-71) receives either `None`, one of the four published names, or a custom
`dict` with keys `density` (four coefficients), `ssa` (three coefficients)
and `equation` (the equation-family tag).  A value that is neither raises a
`TypeError` when indexed and is outside every claim; the argument is
therefore embedded as the inductive `CoeffModel`. -/

/-- The four density-regression coefficients of a coefficient bundle. -/
structure DensityCoeffs where
  d0 : RFloat
  d1 : RFloat
  d2 : RFloat
  d3 : RFloat

/-- The three SSA-regression coefficients of a coefficient bundle. -/
structure SsaCoeffs where
  s0 : RFloat
  s1 : RFloat
  s2 : RFloat

/-- A coefficient bundle: density vector, ssa vector, equation-family tag
(the Python dict with keys `density`, `ssa`, `equation`). -/
structure Coeffs where
  density : DensityCoeffs
  ssa : SsaCoeffs
  equation : String

/-- The `coeff_model` argument of `calc_step` and `calc`. -/
inductive CoeffModel where
  | noneM
  | P2015
  | C2020
  | K2020a
  | K2020b
  | custom (c : Coeffs)

/-- The coefficient-selection chain of `calc_step` (density_ssa.py lines
39-55): `None` and `'P2015'` give the Proksch et al. (2015) bundle,
`'C2020'` the Calonne et al. (2020) bundle, `'K2020a'`/`'K2020b'` the King
et al. (2020) bundles (whose ssa vectors are `[nan, nan, nan]`), and
anything else is used as a custom bundle. -/
noncomputable def selectCoeffs : CoeffModel → Coeffs
  | .noneM =>
      ⟨⟨.fin 420.47, .fin 102.47, .fin (-121.15), .fin (-169.96)⟩,
       ⟨.fin 0.131, .fin 0.355, .fin 0.0291⟩, "l_ex"⟩
  | .P2015 =>
      ⟨⟨.fin 420.47, .fin 102.47, .fin (-121.15), .fin (-169.96)⟩,
       ⟨.fin 0.131, .fin 0.355, .fin 0.0291⟩, "l_ex"⟩
  | .C2020 =>
      ⟨⟨.fin 295.8, .fin 65.1, .fin (-43.2), .fin 47.1⟩,
       ⟨.fin 0.57, .fin (-18.56), .fin (-3.66)⟩, "ssa"⟩
  | .K2020a =>
      ⟨⟨.fin 315.61, .fin 46.94, .fin (-43.94), .fin (-88.15)⟩,
       ⟨.nan, .nan, .nan⟩, "ssa"⟩
  | .K2020b =>
      ⟨⟨.fin 312.54, .fin 50.27, .fin (-50.26), .fin (-85.35)⟩,
       ⟨.nan, .nan, .nan⟩, "ssa"⟩
  | .custom c => c

/-- `DENSITY_ICE = 917.` (density_ssa.py line 22). -/
noncomputable def DENSITY_ICE : RFloat := .fin 917

/-- The density regression of `calc_step` (density_ssa.py line 57):
`density = d0 + d1*log(fm) + d2*log(fm)*l + d3*l`. -/
noncomputable def densityValue (c : Coeffs) (fm l : RFloat) : RFloat :=
  c.density.d0 + c.density.d1 * RFloat.log fm + c.density.d2 * RFloat.log fm * l
    + c.density.d3 * l

/-- The direct SSA regression of the `'ssa'` equation family (density_ssa.py
line 61): `ssa = s0 + s1*log(l) + s2*log(fm)`. -/
noncomputable def ssaDirectValue (c : Coeffs) (fm l : RFloat) : RFloat :=
  c.ssa.s0 + c.ssa.s1 * RFloat.log l + c.ssa.s2 * RFloat.log fm

/-- The correlation length of the `'l_ex'` equation family (density_ssa.py
line 64): `lc = s0 + s1*l + s2*log(fm)`. -/
noncomputable def lcValue (c : Coeffs) (fm l : RFloat) : RFloat :=
  c.ssa.s0 + c.ssa.s1 * l + c.ssa.s2 * RFloat.log fm

/-- The result of `calc_step`: the returned pair `(density, ssa)`, plus
whether the non-fatal `warnings.warn` on an unrecognized equation-family tag
was emitted. -/
structure StepResult where
  density : RFloat
  ssa : RFloat
  warned : Bool

/-- `calc_step(median_force, element_size, coeff_model)` (density_ssa.py
lines 25-71): select the coefficient bundle, compute the density regression,
then branch on the equation-family tag: `'ssa'` uses the direct regression,
`'l_ex'` uses `ssa = 4*(1 - density/DENSITY_ICE)/lc`, and any other tag
emits a warning and yields `nan`. -/
noncomputable def calc_step (median_force element_size : RFloat)
    (coeff_model : CoeffModel) : StepResult :=
  if (selectCoeffs coeff_model).equation = "ssa" then
    ⟨densityValue (selectCoeffs coeff_model) median_force element_size,
     ssaDirectValue (selectCoeffs coeff_model) median_force element_size, false⟩
  else if (selectCoeffs coeff_model).equation = "l_ex" then
    ⟨densityValue (selectCoeffs coeff_model) median_force element_size,
     RFloat.fin 4 * (RFloat.fin 1
        - densityValue (selectCoeffs coeff_model) median_force element_size
          / DENSITY_ICE)
       / lcValue (selectCoeffs coeff_model) median_force element_size, false⟩
  else
    ⟨densityValue (selectCoeffs coeff_model) median_force element_size,
     RFloat.nan, true⟩

theorem calc_step_density (fm l : RFloat) (m : CoeffModel) :
    (calc_step fm l m).density = densityValue (selectCoeffs m) fm l := by
  unfold calc_step
  split
  · rfl
  · split <;> rfl

theorem calc_step_ssa_of_ssa_eq (m : CoeffModel)
    (h : (selectCoeffs m).equation = "ssa") (fm l : RFloat) :
    (calc_step fm l m).ssa = ssaDirectValue (selectCoeffs m) fm l := by
  unfold calc_step
  rw [if_pos h]

theorem calc_step_ssa_of_lex_eq (m : CoeffModel)
    (h : (selectCoeffs m).equation = "l_ex") (fm l : RFloat) :
    (calc_step fm l m).ssa
      = RFloat.fin 4 * (RFloat.fin 1 - densityValue (selectCoeffs m) fm l / DENSITY_ICE)
          / lcValue (selectCoeffs m) fm l := by
  unfold calc_step
  rw [if_neg (by rw [h]; decide), if_pos h]

theorem calc_step_of_unknown_eq (m : CoeffModel)
    (h1 : (selectCoeffs m).equation ≠ "ssa") (h2 : (selectCoeffs m).equation ≠ "l_ex")
    (fm l : RFloat) :
    calc_step fm l m
      = ⟨densityValue (selectCoeffs m) fm l, RFloat.nan, true⟩ := by
  unfold calc_step
  rw [if_neg h1, if_neg h2]

/-! ## Window/overlap resolution in `calc` (density_ssa.py lines 85-99)

`calc(samples, coeff_model, window, overlap)` starts by reassigning `window`
and `overlap` when `coeff_model` is `'C2020'`, `'K2020a'` or `'K2020b'`; the
reassignment is unconditional, it does not depend on what the caller passed
for `window`/`overlap`. -/

/-- The window/overlap reassignment at the top of `calc` (density_ssa.py
lines 85-99): `'C2020'` sets `(1, 50)`, `'K2020a'` and `'K2020b'` set
`(5, 50)`, every other model keeps the caller's pair. -/
def resolveWindowing (coeff_model : CoeffModel) (window overlap : ℚ) : ℚ × ℚ :=
  match coeff_model with
  | .C2020 => (1, 50)
  | .K2020a => (5, 50)
  | .K2020b => (5, 50)
  | _ => (window, overlap)

/-- The errors relevant to this core: the two generic Python exceptions the
code under `src/` can actually raise (`ValueError` from `min()` of an empty
sequence / a mismatched pandas column assignment / `int(nan)`, and
`ZeroDivisionError`), plus the dedicated errors named by the spec's error
taxonomy. -/
inductive PyError where
  | valueError
  | zeroDivisionError
  | insufficientProfilesError
  | configurationError
deriving DecidableEq

/-- Modelled from the spec: the windowing module (`snowmicropyn.windowing`)
is not under `src/`; the spec specifies
`resolution(window, overlap) -> final_resolution` as pure arithmetic that
fails with a `ConfigurationError` if `overlap >= 100` (spacing would be
non-positive) or `window <= 0`, and otherwise returns
`window * (1 - overlap/100)`. -/
def resolution (window overlap : ℚ) : Except PyError ℚ :=
  if 100 ≤ overlap ∨ window ≤ 0 then .error .configurationError
  else .ok (window * (1 - overlap / 100))

/-- The inline final-resolution computation of `median_profile`
(density_ssa.py line 137): `final_resolution = window - (window*overlap)/100`. -/
def finalResolution (window overlap : ℚ) : ℚ :=
  window - window * overlap / 100

/-- Python's `int()` applied to a rational: truncation toward zero. -/
def pyInt (q : ℚ) : ℤ :=
  if 0 ≤ q then ⌊q⌋ else ⌈q⌉

/-- The `pandas` median of a collection of values with not-a-number entries
(`none`): not-a-number values are skipped (`skipna` default), the median of
no values is not-a-number, and the median of an even number of values is the
mean of the two middle ones. -/
def pandasMedian (xs : List (Option ℚ)) : Option ℚ :=
  let vs := xs.filterMap id
  if vs.isEmpty then none
  else
    let sorted := List.insertionSort (· ≤ ·) vs
    some ((sorted.getD ((vs.length - 1) / 2) 0 + sorted.getD (vs.length / 2) 0) / 2)

/-- Python's `str.endswith` (used by `pandas` `columns.str.endswith` at
density_ssa.py lines 158/160), as a suffix test on the character sequences. -/
def endsWithStr (s suff : String) : Bool :=
  suff.data.isSuffixOf s.data

/-! ## The pandas pre-filter of `calc`'s single-series path
(density_ssa.py lines 104-106)

`samples.loc[samples['force'] < 0, 'force'] = np.nan` followed by
`samples.force.interpolate(method='linear', inplace=True)`.  The pandas
`'linear'` interpolation method treats the values as equally spaced on their
positional index: a run of not-a-number entries between a preceding valid
value `a` at position `j` and a following valid value `b` at position `k`
is filled with `a + (b - a)*(i - j)/(k - j)`; a not-a-number entry with no
preceding valid value is left as not-a-number (default `limit_direction`),
and one with a preceding but no following valid value is filled with the
last valid value. -/

/-- The positions of the valid (non-`nan`) entries, with their values. -/
def validEntries (xs : List (Option ℚ)) : List (ℕ × ℚ) :=
  (List.range xs.length).filterMap (fun i => (xs.getD i none).map (fun v => (i, v)))

/-- The last valid entry strictly before position `i`. -/
def lastValidBefore (xs : List (Option ℚ)) (i : ℕ) : Option (ℕ × ℚ) :=
  ((validEntries xs).filter (fun p => p.1 < i)).getLast?

/-- The first valid entry strictly after position `i`. -/
def firstValidAfter (xs : List (Option ℚ)) (i : ℕ) : Option (ℕ × ℚ) :=
  ((validEntries xs).filter (fun p => i < p.1)).head?

/-- `pandas.Series.interpolate(method='linear')` on a series with
not-a-number holes. -/
def pandasInterpolate (xs : List (Option ℚ)) : List (Option ℚ) :=
  (List.range xs.length).map (fun i =>
    match xs.getD i none with
    | some v => some v
    | none =>
      match lastValidBefore xs i, firstValidAfter xs i with
      | some jv, some kv =>
          some (jv.2 + (kv.2 - jv.2) * (((i : ℚ) - (jv.1 : ℚ)) / ((kv.1 : ℚ) - (jv.1 : ℚ))))
      | some jv, none => some jv.2
      | none, _ => none)

/-- The masking step of the pre-filter (density_ssa.py line 105):
`samples.loc[samples['force'] < 0, 'force'] = np.nan`. -/
def maskedForces (samples : List (ℚ × ℚ)) : List (Option ℚ) :=
  samples.map (fun s => if s.2 < 0 then none else some s.2)

/-- The pre-filter of `calc`'s single-series path (density_ssa.py lines
104-106): replace negative forces by not-a-number, then interpolate the
force column linearly; the distance column is untouched. -/
def prefilter (samples : List (ℚ × ℚ)) : List (ℚ × Option ℚ) :=
  (samples.map Prod.fst).zip (pandasInterpolate (maskedForces samples))

/-! ## The shot-noise estimator table (`snowmicropyn.loewe2012.calc`)

`loewe2012.calc` is not under `src/`; per the spec it is the composition of
the Windowing component (4.1) and the Structural-Parameter Estimator (4.2),
producing one row of window statistics per window.  The estimator's internal
formulas are explicitly outside the spec's scope ("the exact formulas of
that estimator are an external, independently specified model"), so the
per-window estimate is a parameter `est` of the model. -/

/-- One row of the shot-noise table: the window's representative distance
and the columns `force_median` and `L2012_L` read by `calc` and
`median_profile`. -/
structure SnRow where
  distance : ℚ
  force_median : Option ℚ
  L2012_L : Option ℚ
deriving DecidableEq

/-- A per-window estimator: the force values of one window in, the pair
(median force, element length) out (not-a-number possible). -/
abbrev WindowEstimator := List (Option ℚ) → Option ℚ × Option ℚ

/-- Modelled from the spec: the number of windows `loewe2012.calc` lays over
a series — windows spaced by the final resolution
`window*(1 - overlap/100)` starting at the first sample, covering the
series' span. -/
def loeweCount (samples : List (ℚ × Option ℚ)) (window overlap : ℚ) : ℕ :=
  match samples.head? with
  | none => 0
  | some first =>
      (⌊(((samples.getLast?).map Prod.fst).getD first.1 - first.1)
          / (window * (1 - overlap / 100))⌋).toNat + 1

/-- Modelled from the spec: `snowmicropyn.loewe2012.calc(samples, window,
overlap)` — one row per window, window `i` starting at
`first_distance + i*final_resolution`, its statistics estimated by `est`
from the force values whose distance falls in the window. -/
def loewe2012calc (est : WindowEstimator) (samples : List (ℚ × Option ℚ))
    (window overlap : ℚ) : List SnRow :=
  match samples.head? with
  | none => []
  | some first =>
      (List.range (loeweCount samples window overlap)).map (fun i : ℕ =>
        let res := window * (1 - overlap / 100)
        let start := first.1 + (i : ℚ) * res
        let win := (samples.filter (fun s => start ≤ s.1 ∧ s.1 < start + window)).map Prod.snd
        let fl := est win
        ⟨start, fl.1, fl.2⟩)

/-- A possibly-not-a-number table cell fed into `calc_step`. -/
noncomputable def toRFloat : Option ℚ → RFloat
  | none => .nan
  | some q => .fin (q : ℝ)

/-- The single-series path of `calc(samples, coeff_model, window, overlap)`
(density_ssa.py lines 74-113): reassign window/overlap for the named models,
pre-filter the force column, run the shot-noise table, and map each row
through `calc_step`, producing `(distance, density, ssa)` rows. -/
noncomputable def calcTable (est : WindowEstimator) (samples : List (ℚ × ℚ))
    (coeff_model : CoeffModel) (window overlap : ℚ) : List (ℚ × RFloat × RFloat) :=
  let wo := resolveWindowing coeff_model window overlap
  let sn := loewe2012calc est (prefilter samples) wo.1 wo.2
  sn.map (fun r =>
    let ds := calc_step (toRFloat r.force_median) (toRFloat r.L2012_L) coeff_model
    (r.distance, ds.density, ds.ssa))

/-! ## The median-profile aggregator (`median_profile`, density_ssa.py
lines 116-164)

`median_profile(list_of_filenames, window, overlap)` loads each filename
`p` via the external collaborator `profile.Profile(p)` (samples, detected
surface and detected ground depths); the loaded data is embedded as a
`ProfileData` carrying the filename. -/

/-- A loaded profile: its filename (used as the column-name stem at
density_ssa.py line 153), its (distance, force) samples and its detected
surface/ground depths. -/
structure ProfileData where
  name : String
  samples : List (ℚ × ℚ)
  surface : ℚ
  ground : ℚ
deriving DecidableEq

/-- A profile's span `detect_ground() - detect_surface()`. -/
def spanOf (p : ProfileData) : ℚ := p.ground - p.surface

/-- The minimum span over a non-empty profile list (density_ssa.py line
133). -/
def shortestSpan (p0 : ProfileData) (rest : List ProfileData) : ℚ :=
  rest.foldl (fun acc p => min acc (spanOf p)) (spanOf p0)

/-- The sampling step read off the first profile (density_ssa.py line 135):
`samples.distance.diff().iloc[-1]`, i.e. the difference of the last two
distances; `none` when there are fewer than two samples (pandas would
produce not-a-number or an index error there, making line 140 raise). -/
def depthStep (p : ProfileData) : Option ℚ :=
  match p.samples.getLast?, p.samples.dropLast.getLast? with
  | some a, some b => some (a.1 - b.1)
  | _, _ => none

/-- The crop of a profile (density_ssa.py line 148): the samples strictly
below the detected surface, truncated to `nlayers` samples.  (Python's
slicing `[:nlayers]` with a negative `nlayers` would drop samples from the
end instead; the claims under check only reach non-negative `nlayers`.) -/
def cropSamples (p : ProfileData) (nlayers : ℕ) : List (ℚ × ℚ) :=
  ((p.samples.filter (fun s => p.surface < s.1)).take nlayers)

/-- The per-profile shot-noise table of the cropped samples (density_ssa.py
line 151). -/
def profileFL (est : WindowEstimator) (window overlap : ℚ) (nlayers : ℕ)
    (p : ProfileData) : List SnRow :=
  loewe2012calc est ((cropSamples p nlayers).map (fun s => (s.1, some s.2))) window overlap

/-- The dataframe `median_profile` returns: the synthetic distance column,
the per-profile `<name>_F`/`<name>_L` columns (kept as the per-profile
tables), and the aggregated `force_median` and `L2012_L` columns. -/
structure MPOutput where
  distance : List ℚ
  cols : List (String × List SnRow)
  force_median : List (Option ℚ)
  L2012_L : List (Option ℚ)
deriving DecidableEq

/-- `median_profile(list_of_filenames, window, overlap)` (density_ssa.py
lines 116-164).  An empty list makes `min()` at line 133 raise a generic
`ValueError`; a first profile with fewer than two samples makes the
`depth_step`/`int()` chain raise (`ValueError`); `depth_step == 0` or
`final_resolution == 0` make the divisions at lines 140-141 raise
`ZeroDivisionError`; a per-profile table whose length differs from the
distance column makes the pandas column assignment at line 153 raise
`ValueError`.  Otherwise the cross-profile medians are taken, per window
index, over the columns whose name ends in `'pnt_F'` (forces) resp.
`'pnt_L'` (element lengths). -/
def medianProfile (est : WindowEstimator) (list_of_filenames : List ProfileData)
    (window overlap : ℚ) : Except PyError MPOutput :=
  match list_of_filenames with
  | [] => .error .valueError
  | p0 :: rest =>
    let shortest_length := shortestSpan p0 rest
    match depthStep p0 with
    | none => .error .valueError
    | some depth_step =>
      if depth_step = 0 then .error .zeroDivisionError
      else if finalResolution window overlap = 0 then .error .zeroDivisionError
      else
        let final_resolution := finalResolution window overlap
        let nlayers := (pyInt (shortest_length / depth_step)).toNat
        let final_nlayers := (pyInt (shortest_length / final_resolution)).toNat
        let distance := (List.range final_nlayers).map (fun i : ℕ => (i : ℚ) * final_resolution)
        let cols := (p0 :: rest).map (fun p => (p.name, profileFL est window overlap nlayers p))
        if cols.all (fun c => c.2.length = final_nlayers) then
          .ok
            { distance := distance
            , cols := cols
            , force_median := (List.range final_nlayers).map (fun i =>
                pandasMedian ((cols.filter (fun c => endsWithStr (c.1 ++ "_F") "pnt_F")).map
                  (fun c => (c.2.map (fun r => r.force_median)).getD i none)))
            , L2012_L := (List.range final_nlayers).map (fun i =>
                pandasMedian ((cols.filter (fun c => endsWithStr (c.1 ++ "_L") "pnt_L")).map
                  (fun c => (c.2.map (fun r => r.L2012_L)).getD i none))) }
        else .error .valueError

/-! ## Claim theorems -/

/-- The density regression on finite inputs: for any bundle whose density
vector holds finite coefficients and any positive finite median force, the
computed density is the finite closed-form value. -/
theorem densityValue_fin (c : Coeffs) (d0 d1 d2 d3 fm l : ℝ)
    (hd : c.density = ⟨.fin d0, .fin d1, .fin d2, .fin d3⟩) (hfm : 0 < fm) :
    densityValue c (.fin fm) (.fin l)
      = .fin (d0 + d1 * Real.log fm + d2 * Real.log fm * l + d3 * l) := by
  simp only [densityValue, hd, RFloat.log_fin_pos hfm]
  rfl

/-- The correlation length on finite inputs. -/
theorem lcValue_fin (c : Coeffs) (s0 s1 s2 fm l : ℝ)
    (hs : c.ssa = ⟨.fin s0, .fin s1, .fin s2⟩) (hfm : 0 < fm) :
    lcValue c (.fin fm) (.fin l) = .fin (s0 + s1 * l + s2 * Real.log fm) := by
  simp only [lcValue, hs, RFloat.log_fin_pos hfm]
  rfl

/-- C1: For every coefficient set (named or custom) whose density vector is
`[d0, d1, d2, d3]` and every input with positive median force `fm` and
element length `l`, the density returned by the regression step equals
`d0 + d1*ln(fm) + d2*ln(fm)*l + d3*l`; in particular for the P2015 vector
`[420.47, 102.47, -121.15, -169.96]` with `fm = 50`, `l = 0.2` the result
equals the closed-form value
`420.47 + 102.47*ln(50) + (-121.15)*ln(50)*0.2 + (-169.96)*0.2`. -/
theorem C1_density_formula :
    (∀ (m : CoeffModel) (d0 d1 d2 d3 fm l : ℝ),
        (selectCoeffs m).density = ⟨.fin d0, .fin d1, .fin d2, .fin d3⟩ →
        0 < fm →
        (calc_step (.fin fm) (.fin l) m).density
          = .fin (d0 + d1 * Real.log fm + d2 * Real.log fm * l + d3 * l))
    ∧ (calc_step (.fin 50) (.fin 0.2) CoeffModel.P2015).density
        = .fin (420.47 + 102.47 * Real.log 50 + (-121.15) * Real.log 50 * 0.2
            + (-169.96) * 0.2) := by
  have general : ∀ (m : CoeffModel) (d0 d1 d2 d3 fm l : ℝ),
      (selectCoeffs m).density = ⟨.fin d0, .fin d1, .fin d2, .fin d3⟩ →
      0 < fm →
      (calc_step (.fin fm) (.fin l) m).density
        = .fin (d0 + d1 * Real.log fm + d2 * Real.log fm * l + d3 * l) := by
    intro m d0 d1 d2 d3 fm l hd hfm
    rw [calc_step_density]
    exact densityValue_fin _ _ _ _ _ _ _ hd hfm
  exact ⟨general, general CoeffModel.P2015 420.47 102.47 (-121.15) (-169.96) 50 0.2 rfl
    (by norm_num)⟩

/-- Witness for C1: the general formula applied to the C2020 bundle at
`fm = 50`, `l = 0.2`. -/
theorem C1_density_formula_witness :
    (calc_step (.fin 50) (.fin 0.2) CoeffModel.C2020).density
      = .fin (295.8 + 65.1 * Real.log 50 + (-43.2) * Real.log 50 * 0.2 + 47.1 * 0.2) :=
  C1_density_formula.1 CoeffModel.C2020 295.8 65.1 (-43.2) 47.1 50 0.2 rfl (by norm_num)

/-- C2: The SSA result branches on the equation-family tag: for `"ssa"` it
equals `s0 + s1*ln(l) + s2*ln(fm)` directly, with no dependency on density;
for `"l_ex"` it equals `4*(1 - density/917)/lc` with
`lc = s0 + s1*l + s2*ln(fm)` and density the value of the density formula,
the ice-density constant fixed at `917`. -/
theorem C2_ssa_equation_families :
    (∀ (m : CoeffModel) (s0 s1 s2 fm l : ℝ),
        (selectCoeffs m).equation = "ssa" →
        (selectCoeffs m).ssa = ⟨.fin s0, .fin s1, .fin s2⟩ →
        0 < fm → 0 < l →
        (calc_step (.fin fm) (.fin l) m).ssa
          = .fin (s0 + s1 * Real.log l + s2 * Real.log fm))
    ∧ (∀ (m : CoeffModel) (d0 d1 d2 d3 s0 s1 s2 fm l : ℝ),
        (selectCoeffs m).equation = "l_ex" →
        (selectCoeffs m).density = ⟨.fin d0, .fin d1, .fin d2, .fin d3⟩ →
        (selectCoeffs m).ssa = ⟨.fin s0, .fin s1, .fin s2⟩ →
        0 < fm →
        s0 + s1 * l + s2 * Real.log fm ≠ 0 →
        (calc_step (.fin fm) (.fin l) m).ssa
          = .fin (4 * (1 - (d0 + d1 * Real.log fm + d2 * Real.log fm * l + d3 * l) / 917)
              / (s0 + s1 * l + s2 * Real.log fm))) := by
  constructor
  · intro m s0 s1 s2 fm l heq hs hfm hl
    rw [calc_step_ssa_of_ssa_eq m heq]
    simp only [ssaDirectValue, hs, RFloat.log_fin_pos hfm, RFloat.log_fin_pos hl]
    rfl
  · intro m d0 d1 d2 d3 s0 s1 s2 fm l heq hd hs hfm hlc
    rw [calc_step_ssa_of_lex_eq m heq, densityValue_fin _ _ _ _ _ _ _ hd hfm,
      lcValue_fin _ _ _ _ _ _ hs hfm]
    simp only [DENSITY_ICE]
    rw [RFloat.fin_div _ _ (by norm_num : (917 : ℝ) ≠ 0), RFloat.fin_sub, RFloat.fin_mul,
      RFloat.fin_div _ _ hlc]

/-- Witness for C2: the `"ssa"` branch at the C2020 bundle and the `"l_ex"`
branch at the P2015 bundle, both at `fm = 50`, `l = 0.2`. -/
theorem C2_ssa_equation_families_witness :
    (calc_step (.fin 50) (.fin 0.2) CoeffModel.C2020).ssa
      = .fin (0.57 + (-18.56) * Real.log 0.2 + (-3.66) * Real.log 50)
    ∧ (calc_step (.fin 50) (.fin 0.2) CoeffModel.P2015).ssa
      = .fin (4 * (1 - (420.47 + 102.47 * Real.log 50 + (-121.15) * Real.log 50 * 0.2
            + (-169.96) * 0.2) / 917)
          / (0.131 + 0.355 * 0.2 + 0.0291 * Real.log 50)) :=
  ⟨C2_ssa_equation_families.1 CoeffModel.C2020 0.57 (-18.56) (-3.66) 50 0.2 rfl rfl
      (by norm_num) (by norm_num),
   C2_ssa_equation_families.2 CoeffModel.P2015 420.47 102.47 (-121.15) (-169.96)
      0.131 0.355 0.0291 50 0.2 rfl rfl rfl (by norm_num)
      (ne_of_gt (by nlinarith [Real.log_pos (show (1 : ℝ) < 50 by norm_num)]))⟩

theorem RFloat.add_def (a b : RFloat) : a + b = RFloat.add a b := rfl

theorem RFloat.mul_def (a b : RFloat) : a * b = RFloat.mul a b := rfl

/-- Counterexample to C3 as stated: at `fm = 0` (which satisfies `fm <= 0`)
with element length `1` and a custom bundle whose density vector is
`[0, 1, 1, 0]`, the density is `0 + 1*log(0) + 1*log(0)*1 + 0*1 = -inf`,
which is infinite, not not-a-number. -/
theorem C3_counterexample_density_neg_inf :
    (calc_step (.fin 0) (.fin 1) (.custom ⟨⟨.fin 0, .fin 1, .fin 1, .fin 0⟩,
        ⟨.fin 0, .fin 0, .fin 0⟩, "ssa"⟩)).density = RFloat.ninf
    ∧ RFloat.ninf.isNan = false := by
  constructor
  · rw [calc_step_density]
    simp only [densityValue, selectCoeffs, RFloat.log_fin_zero, RFloat.add_def,
      RFloat.mul_def]
    norm_num [RFloat.add, RFloat.mul]
  · rfl

/-- C3 (amended): numeric domain violations never raise from the regression
step.  For `fm < 0` the density is not-a-number; for `fm = 0` the density is
non-finite (not-a-number or an infinity — not always not-a-number, see the
counterexample); for an `l_ex`-family input with `lc == 0` the SSA is
non-finite (infinite or not-a-number); and for a bundle whose equation tag
is neither `"ssa"` nor `"l_ex"` the non-fatal warning is emitted, SSA is
not-a-number, and the density is still computed and returned. -/
theorem C3_amended_domain_violations :
    (∀ (m : CoeffModel) (l : RFloat) (fm : ℝ), fm < 0 →
        (calc_step (.fin fm) l m).density = RFloat.nan)
    ∧ (∀ (m : CoeffModel) (l : RFloat),
        ((calc_step (.fin 0) l m).density).isFinite = false)
    ∧ (∀ (m : CoeffModel) (fm l : RFloat),
        (selectCoeffs m).equation = "l_ex" →
        lcValue (selectCoeffs m) fm l = .fin 0 →
        ((calc_step fm l m).ssa).isFinite = false)
    ∧ (∀ (c : Coeffs) (fm l : RFloat),
        c.equation ≠ "ssa" → c.equation ≠ "l_ex" →
        (calc_step fm l (.custom c)).warned = true
          ∧ (calc_step fm l (.custom c)).ssa = RFloat.nan
          ∧ (calc_step fm l (.custom c)).density = densityValue c fm l) := by
  refine ⟨?_, ?_, ?_, ?_⟩
  · intro m l fm hfm
    rw [calc_step_density]
    simp only [densityValue, RFloat.log_fin_neg hfm, RFloat.mul_nan, RFloat.nan_mul,
      RFloat.add_nan, RFloat.nan_add]
  · intro m l
    rw [calc_step_density]
    simp only [densityValue, RFloat.log_fin_zero]
    exact RFloat.add_not_finite_left
      (RFloat.add_not_finite_left
        (RFloat.add_not_finite_right _ (RFloat.mul_ninf_not_finite _))
        _)
      _
  · intro m fm l heq hlc
    rw [calc_step_ssa_of_lex_eq m heq, hlc]
    exact RFloat.div_fin_zero_not_finite _
  · intro c fm l h1 h2
    rw [calc_step_of_unknown_eq (CoeffModel.custom c) h1 h2]
    exact ⟨rfl, rfl, rfl⟩

/-- Witness for the amended C3: each part at a concrete input — `fm = -1`
(density `nan`), `fm = 0` (density non-finite), the P2015 bundle at `fm = 1`,
`l = -131/355` (where `lc` is exactly zero, SSA non-finite), and a custom
bundle with the unrecognized tag `"bad"`. -/
theorem C3_amended_domain_violations_witness :
    (calc_step (.fin (-1)) (.fin 1) CoeffModel.P2015).density = RFloat.nan
    ∧ ((calc_step (.fin 0) (.fin 1) CoeffModel.P2015).density).isFinite = false
    ∧ ((calc_step (.fin 1) (.fin (-131/355)) CoeffModel.P2015).ssa).isFinite = false
    ∧ (calc_step (.fin 1) (.fin 1) (.custom ⟨⟨.fin 0, .fin 0, .fin 0, .fin 0⟩,
        ⟨.fin 0, .fin 0, .fin 0⟩, "bad"⟩)).warned = true :=
  ⟨C3_amended_domain_violations.1 CoeffModel.P2015 (.fin 1) (-1) (by norm_num),
   C3_amended_domain_violations.2.1 CoeffModel.P2015 (.fin 1),
   C3_amended_domain_violations.2.2.1 CoeffModel.P2015 (.fin 1) (.fin (-131/355)) rfl
     (by simp only [lcValue, selectCoeffs, RFloat.log_fin_pos (show (0:ℝ) < 1 by norm_num),
           Real.log_one, RFloat.fin_mul, RFloat.fin_add]
         norm_num),
   (C3_amended_domain_violations.2.2.2 ⟨⟨.fin 0, .fin 0, .fin 0, .fin 0⟩,
        ⟨.fin 0, .fin 0, .fin 0⟩, "bad"⟩ (.fin 1) (.fin 1) (by decide) (by decide)).1⟩

/-- C9: For `'K2020a'`/`'K2020b'` the selected SSA vector is
`[nan, nan, nan]` under the `"ssa"` equation family, so the SSA output is
not-a-number for every input, while the density is still computed from the
corresponding King density coefficients. -/
theorem C9_king_nan_ssa :
    ((selectCoeffs CoeffModel.K2020a).ssa = ⟨.nan, .nan, .nan⟩
      ∧ (selectCoeffs CoeffModel.K2020a).equation = "ssa"
      ∧ (selectCoeffs CoeffModel.K2020b).ssa = ⟨.nan, .nan, .nan⟩
      ∧ (selectCoeffs CoeffModel.K2020b).equation = "ssa")
    ∧ (∀ fm l : RFloat,
        (calc_step fm l CoeffModel.K2020a).ssa = RFloat.nan
          ∧ (calc_step fm l CoeffModel.K2020b).ssa = RFloat.nan)
    ∧ (∀ fm l : ℝ, 0 < fm →
        (calc_step (.fin fm) (.fin l) CoeffModel.K2020a).density
          = .fin (315.61 + 46.94 * Real.log fm + (-43.94) * Real.log fm * l + (-88.15) * l)
          ∧ (calc_step (.fin fm) (.fin l) CoeffModel.K2020b).density
            = .fin (312.54 + 50.27 * Real.log fm + (-50.26) * Real.log fm * l
                + (-85.35) * l)) := by
  refine ⟨⟨rfl, rfl, rfl, rfl⟩, ?_, ?_⟩
  · intro fm l
    constructor
    · rw [calc_step_ssa_of_ssa_eq CoeffModel.K2020a rfl]
      show RFloat.nan + RFloat.nan * RFloat.log l + RFloat.nan * RFloat.log fm = RFloat.nan
      simp only [RFloat.nan_mul, RFloat.nan_add]
    · rw [calc_step_ssa_of_ssa_eq CoeffModel.K2020b rfl]
      show RFloat.nan + RFloat.nan * RFloat.log l + RFloat.nan * RFloat.log fm = RFloat.nan
      simp only [RFloat.nan_mul, RFloat.nan_add]
  · intro fm l hfm
    constructor <;>
      · rw [calc_step_density]
        exact densityValue_fin _ _ _ _ _ _ _ rfl hfm

/-- Witness for C9: the SSA is not-a-number even at not-a-number inputs, and
the K2020a density at `fm = 1`, `l = 1`. -/
theorem C9_king_nan_ssa_witness :
    (calc_step RFloat.nan RFloat.nan CoeffModel.K2020a).ssa = RFloat.nan
    ∧ (calc_step (.fin 1) (.fin 1) CoeffModel.K2020a).density
        = .fin (315.61 + 46.94 * Real.log 1 + (-43.94) * Real.log 1 * 1 + (-88.15) * 1) :=
  ⟨(C9_king_nan_ssa.2.1 RFloat.nan RFloat.nan).1,
   (C9_king_nan_ssa.2.2 1 1 (by norm_num)).1⟩

/-- Counterexample to C4 as stated: calling `calc` with model `'C2020'` and
explicit caller values `window = 30`, `overlap = 0` still windows with
`(1, 50)` — the caller's explicit values are discarded, not used. -/
theorem C4_counterexample_override_discarded :
    resolveWindowing CoeffModel.C2020 30 0 = (1, 50)
    ∧ ((1 : ℚ), (50 : ℚ)) ≠ ((30 : ℚ), (0 : ℚ)) :=
  ⟨rfl, by decide⟩

/-- C4 (amended): the window/overlap pairs carried by the named sets are
applied unconditionally by `calc`: `'C2020'` always windows with `(1, 50)`
and `'K2020a'`/`'K2020b'` always with `(5, 50)`, overriding any explicitly
passed caller values; the caller's window/overlap take effect only for the
remaining models (`None`, `'P2015'`, custom bundles). -/
theorem C4_amended_window_defaults_unconditional :
    ∀ (window overlap : ℚ),
      resolveWindowing CoeffModel.C2020 window overlap = (1, 50)
      ∧ resolveWindowing CoeffModel.K2020a window overlap = (5, 50)
      ∧ resolveWindowing CoeffModel.K2020b window overlap = (5, 50)
      ∧ resolveWindowing CoeffModel.noneM window overlap = (window, overlap)
      ∧ resolveWindowing CoeffModel.P2015 window overlap = (window, overlap)
      ∧ ∀ c : Coeffs, resolveWindowing (CoeffModel.custom c) window overlap
          = (window, overlap) := by
  intro w o
  exact ⟨rfl, rfl, rfl, rfl, rfl, fun c => rfl⟩

/-- C6: for every overlap in `[0, 100)` and window `> 0`, the
final-resolution computation returns `window*(1 - overlap/100)`, which is
strictly positive; for overlap `>= 100` or window `<= 0` it fails with a
`ConfigurationError`.  The inline computation of `median_profile`
(density_ssa.py line 137) agrees with that formula. -/
theorem C6_resolution_contract :
    (∀ window overlap : ℚ, 0 ≤ overlap → overlap < 100 → 0 < window →
        resolution window overlap = .ok (window * (1 - overlap / 100))
          ∧ 0 < window * (1 - overlap / 100))
    ∧ (∀ window overlap : ℚ, 100 ≤ overlap ∨ window ≤ 0 →
        resolution window overlap = .error .configurationError)
    ∧ (∀ window overlap : ℚ,
        finalResolution window overlap = window * (1 - overlap / 100)) := by
  refine ⟨?_, ?_, ?_⟩
  · intro w o h0 h100 hw
    constructor
    · simp only [resolution]
      rw [if_neg (by push_neg; exact ⟨h100, hw⟩)]
    · have h1 : 0 < 1 - o / 100 := by linarith
      exact mul_pos hw h1
  · intro w o h
    simp only [resolution, if_pos h]
  · intro w o
    simp only [finalResolution]
    ring

/-- Witness for C6: `resolution` at `(5, 50)` and at `(5, 100)`. -/
theorem C6_resolution_contract_witness :
    resolution 5 50 = .ok (5 * (1 - 50 / 100))
    ∧ 0 < (5 : ℚ) * (1 - 50 / 100)
    ∧ resolution 5 100 = .error .configurationError :=
  ⟨(C6_resolution_contract.1 5 50 (by norm_num) (by norm_num) (by norm_num)).1,
   (C6_resolution_contract.1 5 50 (by norm_num) (by norm_num) (by norm_num)).2,
   C6_resolution_contract.2.1 5 100 (Or.inl (by norm_num))⟩

/-- Counterexample to C7 as stated: `median_profile` on an empty profile
list fails with the generic `ValueError` raised by Python's `min()` on an
empty sequence (density_ssa.py line 133), not with a dedicated
`InsufficientProfilesError`. -/
theorem C7_counterexample_generic_error :
    medianProfile (fun w => (w.head?.getD none, none)) [] 5 50
        = .error PyError.valueError
    ∧ PyError.valueError ≠ PyError.insufficientProfilesError :=
  ⟨rfl, by decide⟩

/-- C7 (amended): `median_profile` on an empty collection always fails — but
with the generic `ValueError` from `min()` of an empty sequence, not with a
dedicated `InsufficientProfilesError` (no such dedicated error exists in the
code). -/
theorem C7_amended_empty_list_generic_error :
    ∀ (est : WindowEstimator) (window overlap : ℚ),
      medianProfile est [] window overlap = .error PyError.valueError := by
  intro est w o
  rfl

/-! ## Properties of the pre-filter interpolation -/

theorem mem_of_headQ {α : Type} {l : List α} {a : α} (h : l.head? = some a) : a ∈ l := by
  cases l <;> simp_all

theorem mem_of_getLastQ {α : Type} {l : List α} {a : α} (h : l.getLast? = some a) :
    a ∈ l := by
  obtain ⟨hne, heq⟩ := List.mem_getLast?_eq_getLast (show a ∈ l.getLast? from h)
  rw [heq]
  exact List.getLast_mem hne

theorem mem_validEntries {xs : List (Option ℚ)} {j : ℕ} {v : ℚ} :
    (j, v) ∈ validEntries xs ↔ j < xs.length ∧ xs.getD j none = some v := by
  simp only [validEntries, List.mem_filterMap, List.mem_range, Option.map_eq_some']
  constructor
  · rintro ⟨i, hi, a, ha, heq⟩
    cases heq
    exact ⟨hi, ha⟩
  · rintro ⟨hj, hv⟩
    exact ⟨j, hj, v, hv, rfl⟩

theorem lastValidBefore_spec {xs : List (Option ℚ)} {i j : ℕ} {a : ℚ}
    (h : lastValidBefore xs i = some (j, a)) :
    j < i ∧ j < xs.length ∧ xs.getD j none = some a := by
  have hmem : (j, a) ∈ (validEntries xs).filter (fun p => p.1 < i) := mem_of_getLastQ h
  have h1 := List.of_mem_filter hmem
  have h2 := List.mem_of_mem_filter hmem
  rw [mem_validEntries] at h2
  exact ⟨by simpa using h1, h2.1, h2.2⟩

theorem firstValidAfter_spec {xs : List (Option ℚ)} {i k : ℕ} {b : ℚ}
    (h : firstValidAfter xs i = some (k, b)) :
    i < k ∧ k < xs.length ∧ xs.getD k none = some b := by
  have hmem : (k, b) ∈ (validEntries xs).filter (fun p => i < p.1) := mem_of_headQ h
  have h1 := List.of_mem_filter hmem
  have h2 := List.mem_of_mem_filter hmem
  rw [mem_validEntries] at h2
  exact ⟨by simpa using h1, h2.1, h2.2⟩

theorem pandasInterpolate_getD_of_gap {xs : List (Option ℚ)} {i j k : ℕ} {a b : ℚ}
    (hi : i < xs.length) (hnone : xs.getD i none = none)
    (hj : lastValidBefore xs i = some (j, a))
    (hk : firstValidAfter xs i = some (k, b)) :
    (pandasInterpolate xs).getD i none
      = some (a + (b - a) * (((i : ℚ) - (j : ℚ)) / ((k : ℚ) - (j : ℚ)))) := by
  simp only [pandasInterpolate]
  rw [List.getD_eq_getElem?_getD, List.getElem?_map, List.getElem?_range hi]
  simp only [Option.map_some', Option.getD_some]
  rw [hnone, hj, hk]

theorem pandasInterpolate_getD_of_no_before {xs : List (Option ℚ)} {i : ℕ}
    (hi : i < xs.length) (hnone : xs.getD i none = none)
    (hj : lastValidBefore xs i = none) :
    (pandasInterpolate xs).getD i none = none := by
  simp only [pandasInterpolate]
  rw [List.getD_eq_getElem?_getD, List.getElem?_map, List.getElem?_range hi]
  simp only [Option.map_some', Option.getD_some]
  rw [hnone, hj]

theorem pandasInterpolate_getD_of_no_after {xs : List (Option ℚ)} {i j : ℕ} {a : ℚ}
    (hi : i < xs.length) (hnone : xs.getD i none = none)
    (hj : lastValidBefore xs i = some (j, a))
    (hk : firstValidAfter xs i = none) :
    (pandasInterpolate xs).getD i none = some a := by
  simp only [pandasInterpolate]
  rw [List.getD_eq_getElem?_getD, List.getElem?_map, List.getElem?_range hi]
  simp only [Option.map_some', Option.getD_some]
  rw [hnone, hj, hk]

theorem pandasInterpolate_length (xs : List (Option ℚ)) :
    (pandasInterpolate xs).length = xs.length := by
  simp [pandasInterpolate]

theorem maskedForces_length (samples : List (ℚ × ℚ)) :
    (maskedForces samples).length = samples.length := by
  simp [maskedForces]

theorem prefilter_forces (samples : List (ℚ × ℚ)) :
    (prefilter samples).map Prod.snd = pandasInterpolate (maskedForces samples) := by
  apply List.map_snd_zip
  rw [pandasInterpolate_length, maskedForces_length, List.length_map]

theorem prefilter_distances (samples : List (ℚ × ℚ)) :
    (prefilter samples).map Prod.fst = samples.map Prod.fst := by
  apply List.map_fst_zip
  rw [pandasInterpolate_length, maskedForces_length, List.length_map]

theorem prefilter_length (samples : List (ℚ × ℚ)) :
    (prefilter samples).length = samples.length := by
  simp only [prefilter, List.length_zip, pandasInterpolate_length, maskedForces_length,
    List.length_map, min_self]

/-- The distance of sample `m` of a series. -/
def distAt (samples : List (ℚ × ℚ)) (m : ℕ) : ℚ :=
  (samples.map Prod.fst).getD m 0

/-- Counterexample to C8 as stated: for the series `[(0, -5), (1, 3)]`,
whose first force is negative, the pre-filter replaces the negative force
with not-a-number but never fills it (pandas linear interpolation leaves a
hole with no preceding valid value as not-a-number), so it is not true that
each negative force value is replaced and then filled. -/
theorem C8_counterexample_leading_negative :
    (prefilter [((0 : ℚ), (-5 : ℚ)), ((1 : ℚ), (3 : ℚ))]).map Prod.snd
      = [none, some 3] := by
  decide

/-- C8 (amended): `calc` on a single sample series never raises; negative
forces are replaced with not-a-number, and a replaced entry lying strictly
between valid samples is filled by linear interpolation which, under the
uniform-spacing invariant of the data model, equals linear interpolation by
distance; a replaced entry with no preceding valid sample stays
not-a-number, and one with no following valid sample is filled with the
last valid value; the resulting table's distance column is
`first_distance + window_index * final_resolution`, strictly increasing,
with one row per window. -/
theorem C8_amended_prefilter_and_calc :
    (∀ (samples : List (ℚ × ℚ)) (d0 step : ℚ), 0 < step →
      (∀ m, m < samples.length → distAt samples m = d0 + (m : ℚ) * step) →
      ∀ (i j k : ℕ) (a b : ℚ), i < samples.length →
        (maskedForces samples).getD i none = none →
        lastValidBefore (maskedForces samples) i = some (j, a) →
        firstValidAfter (maskedForces samples) i = some (k, b) →
        ((prefilter samples).map Prod.snd).getD i none
          = some (a + (b - a)
              * ((distAt samples i - distAt samples j)
                  / (distAt samples k - distAt samples j))))
    ∧ (∀ (samples : List (ℚ × ℚ)) (i : ℕ), i < samples.length →
        (maskedForces samples).getD i none = none →
        lastValidBefore (maskedForces samples) i = none →
        ((prefilter samples).map Prod.snd).getD i none = none)
    ∧ (∀ (samples : List (ℚ × ℚ)) (i j : ℕ) (a : ℚ), i < samples.length →
        (maskedForces samples).getD i none = none →
        lastValidBefore (maskedForces samples) i = some (j, a) →
        firstValidAfter (maskedForces samples) i = none →
        ((prefilter samples).map Prod.snd).getD i none = some a)
    ∧ (∀ (est : WindowEstimator) (samples : List (ℚ × ℚ)) (window overlap : ℚ),
        samples ≠ [] → 0 < window * (1 - overlap / 100) →
        ((calcTable est samples CoeffModel.noneM window overlap).map Prod.fst)
          = (List.range (loeweCount (prefilter samples) window overlap)).map
              (fun i : ℕ => distAt samples 0 + (i : ℚ) * (window * (1 - overlap / 100)))
          ∧ List.Pairwise (· < ·)
              ((calcTable est samples CoeffModel.noneM window overlap).map Prod.fst)) := by
  refine ⟨?_, ?_, ?_, ?_⟩
  · intro samples d0 step hstep hd i j k a b hi hnone hj hk
    have hlen : (maskedForces samples).length = samples.length := maskedForces_length samples
    obtain ⟨hji, hjlen, -⟩ := lastValidBefore_spec hj
    obtain ⟨hik, hklen, -⟩ := firstValidAfter_spec hk
    rw [prefilter_forces,
      pandasInterpolate_getD_of_gap (by rw [hlen]; exact hi) hnone hj hk]
    congr 1
    rw [hd i hi, hd j (hlen ▸ hjlen), hd k (hlen ▸ hklen)]
    have e1 : d0 + (i : ℚ) * step - (d0 + (j : ℚ) * step) = ((i : ℚ) - (j : ℚ)) * step := by
      ring
    have e2 : d0 + (k : ℚ) * step - (d0 + (j : ℚ) * step) = ((k : ℚ) - (j : ℚ)) * step := by
      ring
    rw [e1, e2, mul_div_mul_right _ _ (ne_of_gt hstep)]
  · intro samples i hi hnone hj
    have hlen := maskedForces_length samples
    rw [prefilter_forces,
      pandasInterpolate_getD_of_no_before (by rw [hlen]; exact hi) hnone hj]
  · intro samples i j a hi hnone hj hk
    have hlen := maskedForces_length samples
    rw [prefilter_forces,
      pandasInterpolate_getD_of_no_after (by rw [hlen]; exact hi) hnone hj hk]
  · intro est samples window overlap hne hres
    have hplen : (prefilter samples).length = samples.length := prefilter_length samples
    obtain ⟨f, rest, hps⟩ : ∃ f rest, prefilter samples = f :: rest := by
      cases hp : prefilter samples with
      | nil =>
          exfalso
          apply hne
          have := hplen
          rw [hp] at this
          exact List.length_eq_zero.mp this.symm
      | cons f rest => exact ⟨f, rest, rfl⟩
    have hf1 : f.1 = distAt samples 0 := by
      have hmapfst := prefilter_distances samples
      rw [hps] at hmapfst
      simp only [distAt, ← hmapfst, List.map_cons, List.getD]
      rfl
    have hdist : ((calcTable est samples CoeffModel.noneM window overlap).map Prod.fst)
        = (List.range (loeweCount (prefilter samples) window overlap)).map
            (fun i : ℕ => distAt samples 0 + (i : ℚ) * (window * (1 - overlap / 100))) := by
      simp only [calcTable, resolveWindowing, List.map_map]
      rw [hps]
      simp only [loewe2012calc, List.head?_cons, List.map_map]
      rw [← hps]
      apply List.map_congr_left
      intro i hi
      simp only [Function.comp]
      rw [hf1]
    refine ⟨hdist, ?_⟩
    rw [hdist]
    refine List.Pairwise.map _ ?_ (List.pairwise_lt_range _)
    intro x y hxy
    have hq : (x : ℚ) < (y : ℚ) := by exact_mod_cast hxy
    have := mul_lt_mul_of_pos_right hq hres
    linarith

/-- Witness for the amended C8: the series `[(0, 1), (1, -4), (2, 3)]` with
step 1 — the inner negative at index 1 is filled with
`1 + (3 - 1) * ((1 - 0) / (2 - 0)) = 2` (the distance-based linear
interpolation), and the resulting table's distances for `window = 2`,
`overlap = 50` are strictly increasing. -/
theorem C8_amended_prefilter_and_calc_witness :
    ((prefilter [((0 : ℚ), (1 : ℚ)), ((1 : ℚ), (-4 : ℚ)),
        ((2 : ℚ), (3 : ℚ))]).map Prod.snd).getD 1 none
      = some (1 + (3 - 1)
          * ((distAt [((0 : ℚ), (1 : ℚ)), ((1 : ℚ), (-4 : ℚ)), ((2 : ℚ), (3 : ℚ))] 1
                - distAt [((0 : ℚ), (1 : ℚ)), ((1 : ℚ), (-4 : ℚ)), ((2 : ℚ), (3 : ℚ))] 0)
              / (distAt [((0 : ℚ), (1 : ℚ)), ((1 : ℚ), (-4 : ℚ)), ((2 : ℚ), (3 : ℚ))] 2
                - distAt [((0 : ℚ), (1 : ℚ)), ((1 : ℚ), (-4 : ℚ)), ((2 : ℚ), (3 : ℚ))] 0)))
    ∧ List.Pairwise (· < ·)
        ((calcTable (fun w => (w.head?.getD none, some 1))
            [((0 : ℚ), (1 : ℚ)), ((1 : ℚ), (-4 : ℚ)), ((2 : ℚ), (3 : ℚ))]
            CoeffModel.noneM 2 50).map Prod.fst) :=
  ⟨C8_amended_prefilter_and_calc.1
      [((0 : ℚ), (1 : ℚ)), ((1 : ℚ), (-4 : ℚ)), ((2 : ℚ), (3 : ℚ))] 0 1 (by norm_num)
      (by intro m hm
          simp only [List.length_cons, List.length_nil] at hm
          interval_cases m <;> norm_num [distAt])
      1 0 2 1 3 (by norm_num) (by decide) (by decide) (by decide),
   (C8_amended_prefilter_and_calc.2.2.2 (fun w => (w.head?.getD none, some 1))
      [((0 : ℚ), (1 : ℚ)), ((1 : ℚ), (-4 : ℚ)), ((2 : ℚ), (3 : ℚ))] 2 50
      (by decide) (by norm_num)).2⟩

/-! ## String-suffix facts for the aggregator's column selection -/

theorem isSuffixOf_iff_suffix (l1 l2 : List Char) : l1.isSuffixOf l2 = true ↔ l1 <:+ l2 := by
  unfold List.isSuffixOf
  rw [List.isPrefixOf_iff_prefix, List.reverse_prefix]

theorem suffix_append_same_iff (a b t : List Char) : (a ++ t) <:+ (b ++ t) ↔ a <:+ b := by
  rw [← List.reverse_prefix, List.reverse_append, List.reverse_append,
    List.prefix_append_right_inj, List.reverse_prefix]

/-- Appending the same tail on both sides does not change the suffix test:
`(s ++ t).endswith (p ++ t)` iff `s.endswith p`. -/
theorem endsWithStr_append_same (s p t : String) :
    endsWithStr (s ++ t) (p ++ t) = endsWithStr s p := by
  apply Bool.coe_iff_coe.mp
  show (p ++ t).data.isSuffixOf (s ++ t).data = true ↔ p.data.isSuffixOf s.data = true
  rw [isSuffixOf_iff_suffix, isSuffixOf_iff_suffix]
  show (p.data ++ t.data) <:+ (s.data ++ t.data) ↔ _
  exact suffix_append_same_iff _ _ _

/-- C5: For every non-empty list of uniformly sampled SMP profiles (filenames
carry the `pnt` extension) whose per-profile tables have one row per window,
the aggregation produces the table whose row count is
`floor(shortest_span / final_resolution)`, whose distance column is
`window_index * final_resolution`, and whose per-row force and
element-length values are the cross-profile medians of the per-profile
per-window estimates (e.g. per-profile medians 10, 12, 14 aggregate
to 12). -/
theorem C5_median_profile_aggregation (est : WindowEstimator) (p0 : ProfileData)
    (rest : List ProfileData) (window overlap step : ℚ)
    (hstep : depthStep p0 = some step) (hstep0 : step ≠ 0)
    (hres : 0 < finalResolution window overlap)
    (hspan : 0 ≤ shortestSpan p0 rest)
    (hnames : ∀ p ∈ p0 :: rest, endsWithStr p.name "pnt" = true)
    (hlen : ∀ p ∈ p0 :: rest,
      (profileFL est window overlap (pyInt (shortestSpan p0 rest / step)).toNat p).length
        = (⌊shortestSpan p0 rest / finalResolution window overlap⌋).toNat) :
    medianProfile est (p0 :: rest) window overlap = .ok
      { distance :=
          (List.range (⌊shortestSpan p0 rest / finalResolution window overlap⌋).toNat).map
            (fun i : ℕ => (i : ℚ) * finalResolution window overlap)
      , cols := (p0 :: rest).map (fun p =>
          (p.name, profileFL est window overlap (pyInt (shortestSpan p0 rest / step)).toNat p))
      , force_median :=
          (List.range (⌊shortestSpan p0 rest / finalResolution window overlap⌋).toNat).map
            (fun i =>
              pandasMedian ((p0 :: rest).map (fun p =>
                ((profileFL est window overlap (pyInt (shortestSpan p0 rest / step)).toNat
                    p).map (fun r => r.force_median)).getD i none)))
      , L2012_L :=
          (List.range (⌊shortestSpan p0 rest / finalResolution window overlap⌋).toNat).map
            (fun i =>
              pandasMedian ((p0 :: rest).map (fun p =>
                ((profileFL est window overlap (pyInt (shortestSpan p0 rest / step)).toNat
                    p).map (fun r => r.L2012_L)).getD i none))) }
    ∧ (∀ out, medianProfile est (p0 :: rest) window overlap = .ok out →
        out.distance.length
          = (⌊shortestSpan p0 rest / finalResolution window overlap⌋).toNat)
    ∧ pandasMedian [some 10, some 12, some 14] = some 12 := by
  have hq : 0 ≤ shortestSpan p0 rest / finalResolution window overlap :=
    div_nonneg hspan hres.le
  have hN : (pyInt (shortestSpan p0 rest / finalResolution window overlap)).toNat
      = (⌊shortestSpan p0 rest / finalResolution window overlap⌋).toNat := by
    simp [pyInt, hq]
  have hall : (((p0 :: rest).map (fun p => (p.name, profileFL est window overlap
        (pyInt (shortestSpan p0 rest / step)).toNat p))).all
      (fun c => c.2.length
        = (pyInt (shortestSpan p0 rest / finalResolution window overlap)).toNat)) = true := by
    rw [List.all_eq_true]
    intro c hc
    obtain ⟨p, hp, rfl⟩ := List.mem_map.mp hc
    simp only [decide_eq_true_eq, hN]
    exact hlen p hp
  have hfilterF : ((p0 :: rest).map (fun p => (p.name, profileFL est window overlap
        (pyInt (shortestSpan p0 rest / step)).toNat p))).filter
      (fun c => endsWithStr (c.1 ++ "_F") "pnt_F")
      = (p0 :: rest).map (fun p => (p.name, profileFL est window overlap
        (pyInt (shortestSpan p0 rest / step)).toNat p)) := by
    apply List.filter_eq_self.mpr
    intro c hc
    obtain ⟨p, hp, rfl⟩ := List.mem_map.mp hc
    show endsWithStr (p.name ++ "_F") "pnt_F" = true
    have e : ("pnt" ++ "_F" : String) = "pnt_F" := rfl
    rw [← e, endsWithStr_append_same]
    exact hnames p hp
  have hfilterL : ((p0 :: rest).map (fun p => (p.name, profileFL est window overlap
        (pyInt (shortestSpan p0 rest / step)).toNat p))).filter
      (fun c => endsWithStr (c.1 ++ "_L") "pnt_L")
      = (p0 :: rest).map (fun p => (p.name, profileFL est window overlap
        (pyInt (shortestSpan p0 rest / step)).toNat p)) := by
    apply List.filter_eq_self.mpr
    intro c hc
    obtain ⟨p, hp, rfl⟩ := List.mem_map.mp hc
    show endsWithStr (p.name ++ "_L") "pnt_L" = true
    have e : ("pnt" ++ "_L" : String) = "pnt_L" := rfl
    rw [← e, endsWithStr_append_same]
    exact hnames p hp
  have main : medianProfile est (p0 :: rest) window overlap = .ok
      { distance :=
          (List.range (⌊shortestSpan p0 rest / finalResolution window overlap⌋).toNat).map
            (fun i : ℕ => (i : ℚ) * finalResolution window overlap)
      , cols := (p0 :: rest).map (fun p =>
          (p.name, profileFL est window overlap (pyInt (shortestSpan p0 rest / step)).toNat p))
      , force_median :=
          (List.range (⌊shortestSpan p0 rest / finalResolution window overlap⌋).toNat).map
            (fun i =>
              pandasMedian ((p0 :: rest).map (fun p =>
                ((profileFL est window overlap (pyInt (shortestSpan p0 rest / step)).toNat
                    p).map (fun r => r.force_median)).getD i none)))
      , L2012_L :=
          (List.range (⌊shortestSpan p0 rest / finalResolution window overlap⌋).toNat).map
            (fun i =>
              pandasMedian ((p0 :: rest).map (fun p =>
                ((profileFL est window overlap (pyInt (shortestSpan p0 rest / step)).toNat
                    p).map (fun r => r.L2012_L)).getD i none))) } := by
    simp only [medianProfile, hstep]
    rw [if_neg hstep0, if_neg (ne_of_gt hres)]
    rw [if_pos hall]
    refine congrArg Except.ok ?_
    rw [hfilterF, hfilterL, hN]
    simp only [List.map_map]
    rfl
  refine ⟨main, ?_,
    by norm_num [pandasMedian, List.insertionSort, List.orderedInsert, List.getD,
      List.filterMap_cons, List.filterMap_nil]⟩
  intro out hout
  rw [main] at hout
  obtain rfl := (Except.ok.inj hout).symm
  simp

/-- A concrete per-window estimator for the aggregation witness: median
force read off the window's first sample, element length 1. -/
def estW : WindowEstimator := fun w => (w.head?.getD none, some 1)

/-- Witness profile: forces 10, span 2. -/
def profW1 : ProfileData := ⟨"a.pnt", [(1, 10), (2, 10), (3, 10)], 0, 2⟩

/-- Witness profile: forces 12, span 3. -/
def profW2 : ProfileData := ⟨"b.pnt", [(1, 12), (2, 12), (3, 12)], 0, 3⟩

/-- Witness profile: forces 14, span 4. -/
def profW3 : ProfileData := ⟨"c.pnt", [(1, 14), (2, 14), (3, 14)], 0, 4⟩

/-- Witness for C5: three uniformly sampled profiles (step 1 mm) of spans
2, 3 and 4 with per-window force medians 10, 12 and 14, aggregated with
`window = 2`, `overlap = 50`. -/
theorem C5_median_profile_aggregation_witness :
    medianProfile estW (profW1 :: [profW2, profW3]) 2 50 = .ok
      { distance :=
          (List.range (⌊shortestSpan profW1 [profW2, profW3] / finalResolution 2 50⌋).toNat).map
            (fun i : ℕ => (i : ℚ) * finalResolution 2 50)
      , cols := (profW1 :: [profW2, profW3]).map (fun p =>
          (p.name, profileFL estW 2 50
            (pyInt (shortestSpan profW1 [profW2, profW3] / 1)).toNat p))
      , force_median :=
          (List.range (⌊shortestSpan profW1 [profW2, profW3] / finalResolution 2 50⌋).toNat).map
            (fun i =>
              pandasMedian ((profW1 :: [profW2, profW3]).map (fun p =>
                ((profileFL estW 2 50
                    (pyInt (shortestSpan profW1 [profW2, profW3] / 1)).toNat p).map
                  (fun r => r.force_median)).getD i none)))
      , L2012_L :=
          (List.range (⌊shortestSpan profW1 [profW2, profW3] / finalResolution 2 50⌋).toNat).map
            (fun i =>
              pandasMedian ((profW1 :: [profW2, profW3]).map (fun p =>
                ((profileFL estW 2 50
                    (pyInt (shortestSpan profW1 [profW2, profW3] / 1)).toNat p).map
                  (fun r => r.L2012_L)).getD i none))) }
    ∧ (∀ out, medianProfile estW (profW1 :: [profW2, profW3]) 2 50 = .ok out →
        out.distance.length
          = (⌊shortestSpan profW1 [profW2, profW3] / finalResolution 2 50⌋).toNat)
    ∧ pandasMedian [some 10, some 12, some 14] = some 12 :=
  C5_median_profile_aggregation estW profW1 [profW2, profW3] 2 50 1
    (by norm_num [depthStep, profW1])
    (by norm_num)
    (by norm_num [finalResolution])
    (by norm_num [shortestSpan, spanOf, profW1, profW2, profW3, List.foldl])
    (by decide)
    (by
      intro p hp
      fin_cases hp <;>
        norm_num [profileFL, cropSamples, loewe2012calc, loeweCount, estW, shortestSpan,
          spanOf, pyInt, finalResolution, profW1, profW2, profW3, List.foldl,
          List.range_succ, List.filter, List.take,
          show Int.toNat 2 = 2 from rfl, show Int.toNat 1 = 1 from rfl])

theorem pandasMedian_nil : pandasMedian [] = none := rfl

/-- Inversion of a successful `median_profile` run: the output table has the
shape built at density_ssa.py lines 143-160 — a synthetic distance column,
one `<name>_F`/`<name>_L` column pair per profile, and the aggregated
medians taken over the columns whose name ends in `'pnt_F'`/`'pnt_L'`. -/
theorem medianProfile_ok_inv (est : WindowEstimator) (p0 : ProfileData)
    (rest : List ProfileData) (window overlap : ℚ) (out : MPOutput)
    (hout : medianProfile est (p0 :: rest) window overlap = .ok out) :
    ∃ nlayers N : ℕ,
      out.distance
          = (List.range N).map (fun i : ℕ => (i : ℚ) * finalResolution window overlap)
      ∧ out.cols = (p0 :: rest).map (fun p =>
          (p.name, profileFL est window overlap nlayers p))
      ∧ out.force_median = (List.range N).map (fun i =>
          pandasMedian ((out.cols.filter (fun c => endsWithStr (c.1 ++ "_F") "pnt_F")).map
            (fun c => (c.2.map (fun r => r.force_median)).getD i none)))
      ∧ out.L2012_L = (List.range N).map (fun i =>
          pandasMedian ((out.cols.filter (fun c => endsWithStr (c.1 ++ "_L") "pnt_L")).map
            (fun c => (c.2.map (fun r => r.L2012_L)).getD i none))) := by
  rcases hds : depthStep p0 with - | step
  · rw [show medianProfile est (p0 :: rest) window overlap = .error .valueError from by
      simp only [medianProfile, hds]] at hout
    simp at hout
  · by_cases h1 : step = 0
    · rw [show medianProfile est (p0 :: rest) window overlap = .error .zeroDivisionError from by
        simp only [medianProfile, hds]; rw [if_pos h1]] at hout
      simp at hout
    by_cases h2 : finalResolution window overlap = 0
    · rw [show medianProfile est (p0 :: rest) window overlap = .error .zeroDivisionError from by
        simp only [medianProfile, hds]; rw [if_neg h1, if_pos h2]] at hout
      simp at hout
    by_cases h3 : (((p0 :: rest).map (fun p => (p.name, profileFL est window overlap
        (pyInt (shortestSpan p0 rest / step)).toNat p))).all
        (fun c => c.2.length
          = (pyInt (shortestSpan p0 rest / finalResolution window overlap)).toNat)) = true
    · rw [show medianProfile est (p0 :: rest) window overlap = .ok
          { distance :=
              (List.range (pyInt (shortestSpan p0 rest
                  / finalResolution window overlap)).toNat).map
                (fun i : ℕ => (i : ℚ) * finalResolution window overlap)
          , cols := (p0 :: rest).map (fun p =>
              (p.name, profileFL est window overlap
                (pyInt (shortestSpan p0 rest / step)).toNat p))
          , force_median :=
              (List.range (pyInt (shortestSpan p0 rest
                  / finalResolution window overlap)).toNat).map
                (fun i =>
                  pandasMedian ((((p0 :: rest).map (fun p =>
                      (p.name, profileFL est window overlap
                        (pyInt (shortestSpan p0 rest / step)).toNat p))).filter
                      (fun c => endsWithStr (c.1 ++ "_F") "pnt_F")).map
                    (fun c => (c.2.map (fun r => r.force_median)).getD i none)))
          , L2012_L :=
              (List.range (pyInt (shortestSpan p0 rest
                  / finalResolution window overlap)).toNat).map
                (fun i =>
                  pandasMedian ((((p0 :: rest).map (fun p =>
                      (p.name, profileFL est window overlap
                        (pyInt (shortestSpan p0 rest / step)).toNat p))).filter
                      (fun c => endsWithStr (c.1 ++ "_L") "pnt_L")).map
                    (fun c => (c.2.map (fun r => r.L2012_L)).getD i none))) } from by
        simp only [medianProfile, hds]; rw [if_neg h1, if_neg h2, if_pos h3]] at hout
      obtain rfl := (Except.ok.inj hout).symm
      exact ⟨(pyInt (shortestSpan p0 rest / step)).toNat,
        (pyInt (shortestSpan p0 rest / finalResolution window overlap)).toNat,
        rfl, rfl, rfl, rfl⟩
    · rw [show medianProfile est (p0 :: rest) window overlap = .error .valueError from by
        simp only [medianProfile, hds]
        rw [if_neg h1, if_neg h2, if_neg h3]] at hout
      simp at hout

/-- C10: The cross-profile medians in the aggregator are taken only over
the columns whose name ends in `'pnt_F'`/`'pnt_L'`, i.e. only over profiles
whose filename ends in `'pnt'`; a profile whose filename does not end in
`'pnt'` is silently excluded, and if no filename ends in `'pnt'`, the
aggregated `force_median` and `L2012_L` values are not-a-number for every
window. -/
theorem C10_pnt_suffix_selection :
    (∀ (est : WindowEstimator) (p0 : ProfileData) (rest : List ProfileData)
        (window overlap : ℚ) (out : MPOutput),
        medianProfile est (p0 :: rest) window overlap = .ok out →
        out.force_median = (List.range out.distance.length).map (fun i =>
            pandasMedian ((out.cols.filter (fun c => endsWithStr c.1 "pnt")).map
              (fun c => (c.2.map (fun r => r.force_median)).getD i none)))
          ∧ out.L2012_L = (List.range out.distance.length).map (fun i =>
              pandasMedian ((out.cols.filter (fun c => endsWithStr c.1 "pnt")).map
                (fun c => (c.2.map (fun r => r.L2012_L)).getD i none))))
    ∧ (∀ (est : WindowEstimator) (p0 : ProfileData) (rest : List ProfileData)
        (window overlap : ℚ) (out : MPOutput),
        medianProfile est (p0 :: rest) window overlap = .ok out →
        (∀ p ∈ p0 :: rest, endsWithStr p.name "pnt" = false) →
        out.force_median = List.replicate out.distance.length none
          ∧ out.L2012_L = List.replicate out.distance.length none) := by
  have epredF : ∀ s : String, endsWithStr (s ++ "_F") "pnt_F" = endsWithStr s "pnt" := by
    intro s
    have e : ("pnt" ++ "_F" : String) = "pnt_F" := rfl
    rw [← e, endsWithStr_append_same]
  have epredL : ∀ s : String, endsWithStr (s ++ "_L") "pnt_L" = endsWithStr s "pnt" := by
    intro s
    have e : ("pnt" ++ "_L" : String) = "pnt_L" := rfl
    rw [← e, endsWithStr_append_same]
  constructor
  · intro est p0 rest window overlap out hout
    obtain ⟨nl, N, hdist, hcols, hF, hL⟩ :=
      medianProfile_ok_inv est p0 rest window overlap out hout
    constructor
    · rw [hF, hdist]
      simp only [List.length_map, List.length_range, epredF]
    · rw [hL, hdist]
      simp only [List.length_map, List.length_range, epredL]
  · intro est p0 rest window overlap out hout hnone
    obtain ⟨nl, N, hdist, hcols, hF, hL⟩ :=
      medianProfile_ok_inv est p0 rest window overlap out hout
    have hnilF : out.cols.filter (fun c => endsWithStr (c.1 ++ "_F") "pnt_F") = [] := by
      rw [List.filter_eq_nil_iff]
      intro c hc
      rw [hcols] at hc
      obtain ⟨p, hp, rfl⟩ := List.mem_map.mp hc
      simp [epredF, hnone p hp]
    have hnilL : out.cols.filter (fun c => endsWithStr (c.1 ++ "_L") "pnt_L") = [] := by
      rw [List.filter_eq_nil_iff]
      intro c hc
      rw [hcols] at hc
      obtain ⟨p, hp, rfl⟩ := List.mem_map.mp hc
      simp [epredL, hnone p hp]
    constructor
    · rw [hF, hnilF, hdist]
      simp [pandasMedian_nil, List.map_const']
    · rw [hL, hnilL, hdist]
      simp [pandasMedian_nil, List.map_const']

/-- A trivial estimator for the C10 witness. -/
def estX : WindowEstimator := fun w => (w.head?.getD none, none)

/-- A profile whose filename does not end in `pnt` and whose span is zero. -/
def profX : ProfileData := ⟨"a.csv", [(1, 5), (2, 5)], 1, 1⟩

/-- The table `median_profile` produces for `profX` alone. -/
def outX : MPOutput := ⟨[], [("a.csv", [])], [], []⟩

/-- Witness for C10: a single profile named `a.csv` — not a `pnt` file — is
excluded from the aggregation, and with no `pnt` column the aggregated
medians are all not-a-number (here the table is empty). -/
theorem C10_pnt_suffix_selection_witness :
    (outX.force_median = (List.range outX.distance.length).map (fun i =>
        pandasMedian ((outX.cols.filter (fun c => endsWithStr c.1 "pnt")).map
          (fun c => (c.2.map (fun r => r.force_median)).getD i none)))
      ∧ outX.L2012_L = (List.range outX.distance.length).map (fun i =>
          pandasMedian ((outX.cols.filter (fun c => endsWithStr c.1 "pnt")).map
            (fun c => (c.2.map (fun r => r.L2012_L)).getD i none))))
    ∧ (outX.force_median = List.replicate outX.distance.length none
      ∧ outX.L2012_L = List.replicate outX.distance.length none) :=
  ⟨C10_pnt_suffix_selection.1 estX profX [] 2 50 outX
      (by norm_num [medianProfile, depthStep, profX, shortestSpan, spanOf, pyInt,
        finalResolution, profileFL, cropSamples, loewe2012calc, loeweCount, estX, outX,
        List.filter, List.take, show Int.toNat 0 = 0 from rfl]),
   C10_pnt_suffix_selection.2 estX profX [] 2 50 outX
      (by norm_num [medianProfile, depthStep, profX, shortestSpan, spanOf, pyInt,
        finalResolution, profileFL, cropSamples, loewe2012calc, loeweCount, estX, outX,
        List.filter, List.take, show Int.toNat 0 = 0 from rfl])
      (by decide)⟩
